import Mathlib

/-!
Verification of the v0.3.x connector client model (`connector/v03x.py`).

The development shallowly embeds the parts of the source the claims are
about: the fixed-width binary value codecs, the container/id-chain
addressing model, the type registry, and the controller operations
(`initialize`, `write_value`, `create_object`, `delete`, `reset`,
`_materialize_object_descriptor`) together with the result funnel
(`_handle_error` / `_fetch_data_block`).

Bytes on the wire are modelled as `List Int` (each element a byte value
0–255 in every reachable state); id-chains as `List Int`.  Device
interaction is modelled explicitly: each operation returns the ordered
list of device commands it issued (`Event`) together with its outcome,
an `Except Err` value mirroring Python exceptions.  Device responses are
passed in as parameters, one per round trip the source performs.
Python indexing `buf[i]` on a buffer of sufficient length is modelled
with `List.getD i 0`.
-/

/-- Python exceptions raised by the modelled code paths. -/
inductive Err where
  | failedOperation (msg : String)
  | valueError (msg : String)
  | typeError
  | attributeError
  | indexError
deriving DecidableEq

/-- Device commands issued over the protocol, in the order the source
issues them.  `readSys`/`writeSys` are the system-root channel used by
`SystemID`; `writeVal` is the user channel of `write_value`. -/
inductive Event where
  | readSys (id_chain : List Int) (len : Int)
  | writeSys (id_chain : List Int) (data : List Int)
  | writeVal (id_chain : List Int) (data : List Int)
  | deleteObject (id_chain : List Int)
  | nextSlot (id_chain : List Int)
  | createObject (id_chain : List Int) (t : Int) (data : List Int)
  | resetCmd (flag : Int)
deriving DecidableEq

/-- Modelled from the spec: `signed_byte` is imported from
`protocol.v03x`, which is not under `src/`; per the spec, the Byte
decoder "interprets the single byte as signed" two's complement, i.e. a
byte value 128–255 denotes that value minus 256. -/
def signed_byte (b : Int) : Int := if 128 ≤ b then b - 256 else b

/-- Modelled from the spec: `unsigned_byte` is imported from
`protocol.v03x`, which is not under `src/`; per the spec, the Byte
encoder "wraps negative values into the unsigned 0–255 range". -/
def unsigned_byte (v : Int) : Int := if v < 0 then v + 256 else v

/-- `ByteEncoder._encode`: `buf[0] = unsigned_byte(value)`, one byte. -/
def byte_encode (v : Int) : List Int := [unsigned_byte v]

/-- `ByteEncoder.encoded_len()`. -/
def byte_encoded_len : Nat := 1

/-- `ByteDecoder._decode`: `signed_byte(buf[0])`. -/
def byte_decode (buf : List Int) : Int := signed_byte (buf.getD 0 0)

/-- `ShortEncoder._encode`: adds `64 * 1024` to a negative value, then
`buf[1] = unsigned_byte(int(value / 256))` (Python `int(x / y)`
truncates toward zero, `Int.tdiv`) and `buf[0] = value % 256`
(Python `%` with a positive modulus yields 0–255, `Int.emod`). -/
def short_encode (v : Int) : List Int :=
  let w := if v < 0 then v + 64 * 1024 else v
  [w % 256, unsigned_byte (w.tdiv 256)]

/-- `ShortEncoder.encoded_len()`. -/
def short_encoded_len : Nat := 2

/-- `ShortDecoder._decode`: `(signed_byte(buf[1]) * 256) + buf[0]`. -/
def short_decode (buf : List Int) : Int := signed_byte (buf.getD 1 0) * 256 + buf.getD 0 0

/-- `LongEncoder._encode`: adds `1 <<< 32` to a negative value, then
emits four little-endian bytes by repeated `% 256` / truncating
division by 256. -/
def long_encode (v : Int) : List Int :=
  let w := if v < 0 then v + (1 <<< 32) else v
  [w % 256, (w.tdiv 256) % 256, ((w.tdiv 256).tdiv 256) % 256,
    (((w.tdiv 256).tdiv 256).tdiv 256) % 256]

/-- `LongEncoder.encoded_len()`. -/
def long_encoded_len : Nat := 4

/-- `LongDecoder._decode`: `((((signed_byte(buf[3]) * 256) + buf[2]) * 256) + buf[1]) * 256 + buf[0]`. -/
def long_decode (buf : List Int) : Int :=
  ((signed_byte (buf.getD 3 0) * 256 + buf.getD 2 0) * 256 + buf.getD 1 0) * 256 + buf.getD 0 0

/-- Containers of the addressing tree: `RootContainer` (the `root`
constructor) and `Container`, a contained object living at an integer
slot of a parent container (the `child` constructor). -/
inductive Container where
  | root
  | child (parent : Container) (slot : Int)
deriving DecidableEq

/-- `ContainerTraits.id_chain_for`.  `RootContainer.id_chain_for(slot)`
returns `(slot,)`; `Container.id_chain_for(slot)` returns
`self.id_chain + (slot,)`, where `ContainedObject.id_chain` is
`self.container.id_chain_for(self.slot)` — substituting that one method
call gives the structural second clause. -/
def id_chain_for : Container → Int → List Int
  | .root, slot => [slot]
  | .child p s, slot => id_chain_for p s ++ [slot]

/-- `id_chain`: `RootContainer.id_chain` is the empty tuple;
`ContainedObject.id_chain` is `self.container.id_chain_for(self.slot)`. -/
def id_chain : Container → List Int
  | .root => []
  | .child p s => id_chain_for p s

/-- `BaseController.container_for(id_chain)`: starts at the root
container and wraps a `Container` proxy around it per id-chain element.
It is a pure client-side construction — no device call appears. -/
def container_for (idc : List Int) : Container :=
  idc.foldl Container.child Container.root

/-- `BaseController._handle_error` applied to the already-resolved
future value (`result_from` yields `None` when the future is absent or
timed out, `some e` for an integer error code): a negative code raises
`FailedOperationError("errorcode %d")` unless `allow_fail`; comparing
`None < 0` raises a `TypeError` in Python. -/
def handle_error (result : Option Int) (allow_fail : Bool) : Except Err Int :=
  match result with
  | none => .error .typeError
  | some e =>
    if e < 0 && !allow_fail then .error (.failedOperation ("errorcode " ++ toString e))
    else .ok e

/-- `BaseController._fetch_data_block` applied to the already-resolved
future value: Python `if not data` raises `FailedOperationError("no
data")` for both an absent (`None`) and an empty payload. -/
def fetch_data_block (data : Option (List Int)) : Except Err (List Int) :=
  match data with
  | none => .error (.failedOperation "no data")
  | some d => if d = [] then .error (.failedOperation "no data") else .ok d

/-- The flag argument `BaseController.reset` passes to the device's
reset command.  The source expression is
`1 if erase_eeprom else 0 or 2 if hard_reset else 0`, which Python
parses as `1 if erase_eeprom else ((0 or 2) if hard_reset else 0)`:
conditional expressions bind loosest, so the whole tail is the outer
`else` branch, and `0 or 2` evaluates to `2`. -/
def reset_flag (erase_eeprom hard_reset : Bool) : Int :=
  if erase_eeprom then 1 else (if hard_reset then 2 else 0)

/-- `BaseController._write_value(obj, value, fn)` (the body of both
`write_value` and `write_system_value`, here for the user channel
`fn = p.write_value`): encodes the value with the object's encoder,
sends the encoded bytes (`_fetch_data_block` issues the write and
checks the echoed payload is present and non-empty), and raises
`FailedOperationError("could not write value")` when the echo differs
from what was sent.  The proxy holds no cached value — the only
client-visible effects are the emitted command and the outcome. -/
def write_value {α : Type} (enc : α → List Int) (idc : List Int) (v : α)
    (echo : List Int) : List Event × Except Err Unit :=
  let encoded := enc v
  ([Event.writeVal idc encoded],
    match fetch_data_block (some echo) with
    | .error e => .error e
    | .ok data =>
      if data ≠ encoded then .error (.failedOperation "could not write value")
      else .ok ())

/-- `BaseController.initialize(fetch_id)`.  `system_id()` is a
`SystemID` proxy at system-root slot 0 with the opaque Buffer codec
(encode and decode are identity) and `encoded_len() == 1`.  The body
reads it (`_fetch_data_block(p.read_system_value, (0,), 1)`), replaces
the id by `fetch_id()` when the first stored byte is `0xFF`, writes the
resulting id back unconditionally via `_write_value`, and returns it.
`stored` is the device's read response, `fresh` the collaborator's
`fetch_id()` result, `echo` the device's write echo. -/
def initialize_controller (stored fresh echo : List Int) :
    List Event × Except Err (List Int) :=
  match fetch_data_block (some stored) with
  | .error e => ([Event.readSys [0] 1], .error e)
  | .ok current =>
    let current_id := if current.getD 0 0 = 255 then fresh else current
    ([Event.readSys [0] 1, Event.writeSys [0] current_id],
      match fetch_data_block (some echo) with
      | .error e => .error e
      | .ok data =>
        if data ≠ current_id then .error (.failedOperation "could not write value")
        else .ok current_id)

/-- Client-side state of an `InstantiableObject` proxy: the
`controller` back-reference (modelled by whether it is attached), the
hosting container and the slot.  `delete` clears all three. -/
structure Proxy where
  attached : Bool
  container : Option Container
  slot : Option Int
deriving DecidableEq

/-- `ContainedObject.id_chain` for a proxy:
`self.container.id_chain_for(self.slot)` (only queried while the proxy
is live, i.e. container and slot are set). -/
def Proxy.id_chain (p : Proxy) : List Int :=
  match p.container, p.slot with
  | some c, some s => id_chain_for c s
  | _, _ => []

/-- `InstantiableObject.delete`: when `self.controller` is truthy it
calls `controller.delete_object(self)` — which issues the device
delete for `obj.id_chain` through `_delete_object_at` with
`optional=False`, i.e. `_handle_error(..., allow_fail=False)` on the
device's response `resp` — and then sets container, slot and
controller to `None`.  When the controller reference is already
cleared the body does nothing. -/
def delete_proxy (p : Proxy) (resp : Int) : List Event × Except Err Proxy :=
  if p.attached then
    ([Event.deleteObject p.id_chain],
      match handle_error (some resp) false with
      | .error e => .error e
      | .ok _ => .ok ⟨false, none, none⟩)
  else ([], .ok p)

/-- The per-type data `create_object` dispatches on dynamically: the
wire `type_id`, the class methods `encode_definition` /
`decode_definition` (Except-valued, since both may raise), and Python
truthiness of an argument value (used by `args and ...`). -/
structure ObjClass (α : Type) where
  type_id : Int
  truthy : α → Bool
  encode_definition : α → Except Err (List Int)
  decode_definition : List Int → Except Err α

/-- `PersistChangeValue.encode_definition`: raises
`ValueError("threshold < 0")` when `arg[1] < 0`, otherwise returns
`shortEnc.encode(arg[0]) + shortEnc.encode(arg[1])`.  It is a pure
classmethod: it performs no device call. -/
def PersistChangeValue.encode_definition (arg : Int × Int) : Except Err (List Int) :=
  if arg.2 < 0 then .error (.valueError "threshold < 0")
  else .ok (short_encode arg.1 ++ short_encode arg.2)

/-- `PersistChangeValue.decode_definition`: decodes `data_block[0:2]`
and `data_block[2:4]` as Shorts. -/
def PersistChangeValue.decode_definition (d : List Int) : Except Err (Int × Int) :=
  .ok (short_decode (d.take 2), short_decode ((d.drop 2).take 2))

/-- `PersistChangeValue` as dispatch data for `create_object`:
`type_id = 9`; its argument is a pair, and a 2-tuple is always truthy
in Python. -/
def pcvClass : ObjClass (Int × Int) :=
  ⟨9, fun _ => true, PersistChangeValue.encode_definition, PersistChangeValue.decode_definition⟩

/-- `BaseController._create_object(container, obj_class, slot, data)`:
replaces a `None`/empty block by `[]`, computes the id-chain and calls
`_handle_error(p.create_object, id_chain, type_id, data)` with
`allow_fail=False` on the device response `createResp`. -/
def create_cmd {α : Type} (cls : ObjClass α) (c : Container) (s : Int)
    (data : Option (List Int)) (createResp : Int) :
    List Event × Except Err (Container × Int) :=
  let d := data.getD []
  ([Event.createObject (id_chain_for c s) cls.type_id d],
    match handle_error (some createResp) false with
    | .error e => .error e
    | .ok _ => .ok (c, s))

/-- Lines 584–589 of `create_object`, after the slot has been settled:
`data = (args is not None and obj_class.encode_definition(args)) or None`
(so a raised encode error propagates, and a falsy — empty — encoding
becomes `None`); `dec = args and obj_class.decode_definition(data)`
(for falsy `args`, `dec` is `args` itself and the comparison passes;
for truthy `args` with `data = None`, subscripting `None` inside
`decode_definition` raises a `TypeError`); `if dec != args: raise
ValueError(...)`; then `_create_object` and the proxy `(c, s)`. -/
def create_object_checked {α : Type} [DecidableEq α] (cls : ObjClass α)
    (args : Option α) (c : Container) (s : Int) (createResp : Int) :
    List Event × Except Err (Container × Int) :=
  match args with
  | none => create_cmd cls c s none createResp
  | some a =>
    match cls.encode_definition a with
    | .error e => ([], .error e)
    | .ok enc =>
      let data : Option (List Int) := if enc = [] then none else some enc
      if cls.truthy a then
        match data with
        | none => ([], .error Err.typeError)
        | some d =>
          match cls.decode_definition d with
          | .error e => ([], .error e)
          | .ok dec =>
            if dec ≠ a then ([], .error (.valueError "encode-decode mismatch"))
            else create_cmd cls c s data createResp
      else create_cmd cls c s data createResp

/-- `BaseController.create_object(obj_class, args, container, slot)`:
`container = container or self.root_container`; when `slot` is given, a
speculative `_delete_object_at(container.id_chain_for(slot),
optional=True)` is issued first (`allow_fail=True`, so the device's
response cannot raise and is not a parameter here); when `slot` is
`None`, `next_slot(container)` asks the device
(`_handle_error(p.next_slot, container.id_chain)` on response
`nextSlotResp`).  Only then are the definition bytes computed,
round-trip checked and the create command issued
(`create_object_checked`). -/
def create_object {α : Type} [DecidableEq α] (cls : ObjClass α) (args : Option α)
    (container : Option Container) (slot : Option Int)
    (nextSlotResp createResp : Int) : List Event × Except Err (Container × Int) :=
  let c := container.getD Container.root
  match slot with
  | some s =>
    let r := create_object_checked cls args c s createResp
    (Event.deleteObject (id_chain_for c s) :: r.1, r.2)
  | none =>
    match handle_error (some nextSlotResp) false with
    | .error e => ([Event.nextSlot (id_chain c)], .error e)
    | .ok s =>
      let r := create_object_checked cls args c s createResp
      (Event.nextSlot (id_chain c) :: r.1, r.2)

/-- The concrete application object types registered in
`BuiltInObjectTypes.all_types`. -/
inductive ObjType where
  | currentTicks
  | dynamicContainer
  | persistentValue
  | valueProfile
  | logicActuator
  | bangBangController
  | persistChangeValue
deriving DecidableEq

/-- The constant `type_id` class attribute of each registered type. -/
def ObjType.type_id : ObjType → Int
  | .currentTicks => 3
  | .dynamicContainer => 4
  | .persistentValue => 5
  | .valueProfile => 6
  | .logicActuator => 7
  | .bangBangController => 8
  | .persistChangeValue => 9

/-- `BuiltInObjectTypes.all_types`, in source order. -/
def all_types : List ObjType :=
  [.currentTicks, .dynamicContainer, .persistentValue, .valueProfile,
   .logicActuator, .bangBangController, .persistChangeValue]

/-- `BuiltInObjectTypes.from_id`: `_from_id.get(type_id, None)` where
`_from_id = dict((x.type_id, x) for x in all_types)` — the ids are
pairwise distinct, so dictionary lookup is lookup of the first (only)
entry with that id. -/
def from_id (t : Int) : Option ObjType :=
  all_types.find? (fun x => x.type_id = t)

/-- Decoded constructor arguments as they occur across the registered
types: an opaque byte block (`PersistentValue`) or a pair of Shorts
(`PersistChangeValue`). -/
inductive ArgsV where
  | blockArgs (b : List Int)
  | pairArgs (v t : Int)
deriving DecidableEq

/-- `decode_definition` dispatched on the concrete class, on a
non-empty block: `CurrentTicks`/`DynamicContainer` inherit
`EmptyDefinition.decode_definition`, which raises a `ValueError`;
`PersistentValue` inherits `NonEmptyBlockDefinition`, which raises on
an empty block and passes the block through otherwise;
`PersistChangeValue` decodes two Shorts; `ValueProfile`,
`LogicActuator` and `BangBangController` are bare classes defining no
`decode_definition` at all, so attribute lookup raises. -/
def decode_definition_of (τ : ObjType) (d : List Int) : Except Err ArgsV :=
  match τ with
  | .currentTicks => .error (.valueError "object does not require a definition block")
  | .dynamicContainer => .error (.valueError "object does not require a definition block")
  | .persistentValue =>
    if d = [] then .error (.valueError "requires a non-zero length block")
    else .ok (.blockArgs d)
  | .persistChangeValue =>
    match PersistChangeValue.decode_definition d with
    | .error e => .error e
    | .ok a => .ok (.pairArgs a.1 a.2)
  | .valueProfile => .error .attributeError
  | .logicActuator => .error .attributeError
  | .bangBangController => .error .attributeError

/-- `ObjectReference`: location, resolved class and decoded args of a
listed object (`obj_class` is whatever `from_id` returned, possibly
`None`). -/
structure ObjectReference where
  container : Container
  slot : Int
  obj_class : Option ObjType
  args : Option ArgsV
deriving DecidableEq

/-- `BaseController.container_chain_and_id(id_chain)`:
`(id_chain[:-1], id_chain[-1])`; Python indexing `[-1]` on an empty
sequence raises an `IndexError`. -/
def container_chain_and_id (idc : List Int) : Except Err (List Int × Int) :=
  match idc with
  | [] => .error .indexError
  | _ => .ok (idc.dropLast, idc.getLastD 0)

/-- `BaseController._materialize_object_descriptor(id_chain, obj_type,
data)`: splits the id-chain into container prefix and slot
(`_container_slot_from_id_chain`, which rebuilds the container with
`container_for`), resolves the class with `BuiltInObjectTypes.from_id`,
and computes `args = cls.decode_definition(data) if data else None` —
for a non-empty block with an unknown type, `cls` is `None` and the
attribute access raises. -/
def materialize_object_descriptor (idc : List Int) (obj_type : Int)
    (data : List Int) : Except Err ObjectReference :=
  match container_chain_and_id idc with
  | .error e => .error e
  | .ok (pre, s) =>
    let container := container_for pre
    let cls := from_id obj_type
    match data with
    | [] => .ok ⟨container, s, cls, none⟩
    | d =>
      match cls with
      | none => .error .attributeError
      | some τ =>
        match decode_definition_of τ d with
        | .error e => .error e
        | .ok a => .ok ⟨container, s, cls, some a⟩

/-! Helper lemmas shared by the claim theorems. -/

theorem byte_rt (v : Int) (h1 : -128 ≤ v) (h2 : v ≤ 127) :
    byte_decode (byte_encode v) = v := by
  simp only [byte_decode, byte_encode, signed_byte, unsigned_byte, List.getD]
  split_ifs <;> simp_all <;> omega

theorem short_rt (v : Int) (h1 : -32768 ≤ v) (h2 : v ≤ 32767) :
    short_decode (short_encode v) = v := by
  simp only [short_decode, short_encode, signed_byte, unsigned_byte, List.getD]
  have hw : (if v < 0 then v + 64 * 1024 else v) ≥ 0 := by split <;> omega
  rw [Int.tdiv_eq_ediv hw (by omega)]
  split_ifs <;> simp_all <;> omega

theorem long_rt (v : Int) (h1 : -(2^31) ≤ v) (h2 : v ≤ 2^31 - 1) :
    long_decode (long_encode v) = v := by
  simp only [long_decode, long_encode, signed_byte, List.getD]
  have hw : (if v < 0 then v + (1 <<< 32) else v) ≥ 0 := by split <;> omega
  rw [Int.tdiv_eq_ediv hw (by omega),
      Int.tdiv_eq_ediv (by positivity) (by omega),
      Int.tdiv_eq_ediv (by positivity) (by omega)]
  split_ifs <;> simp_all <;> omega

theorem id_chain_for_eq (c : Container) (s : Int) :
    id_chain_for c s = id_chain c ++ [s] := by
  cases c <;> rfl

theorem id_chain_child (c : Container) (s : Int) :
    id_chain (Container.child c s) = id_chain c ++ [s] := by
  cases c <;> rfl

theorem id_chain_foldl (acc : Container) (idc : List Int) :
    id_chain (idc.foldl Container.child acc) = id_chain acc ++ idc := by
  induction idc generalizing acc with
  | nil => simp
  | cons x xs ih =>
    rw [List.foldl_cons, ih, id_chain_child, List.append_assoc, List.singleton_append]

/-! Claim theorems. -/

/-- C1: the claim states that the flag passed to the device's reset
command packs bit 0 (erase) and bit 1 (hard reset) independently, so
that `reset(true, true)` sends 3.  The code's conditional expression
instead drops the hard-reset bit whenever `erase_eeprom` is true:
`reset(true, true)` sends 1, not 3 (the other three combinations match
the claim). -/
theorem reset_flag_drops_hard_reset_bit :
    reset_flag true true = 1 ∧ reset_flag true false = 1 ∧
    reset_flag false true = 2 ∧ reset_flag false false = 0 := by
  decide

/-- C5: for every integer representable in the codec's width,
`decode(encode(v)) = v`, and the encoders produce exactly
`encoded_len()` bytes (1, 2, 4). -/
theorem codec_round_trip (v : Int) :
    (-128 ≤ v → v ≤ 127 →
      byte_decode (byte_encode v) = v ∧ (byte_encode v).length = byte_encoded_len) ∧
    (-32768 ≤ v → v ≤ 32767 →
      short_decode (short_encode v) = v ∧ (short_encode v).length = short_encoded_len) ∧
    (-(2^31) ≤ v → v ≤ 2^31 - 1 →
      long_decode (long_encode v) = v ∧ (long_encode v).length = long_encoded_len) := by
  refine ⟨fun h1 h2 => ⟨byte_rt v h1 h2, rfl⟩,
          fun h1 h2 => ⟨short_rt v h1 h2, rfl⟩,
          fun h1 h2 => ⟨long_rt v h1 h2, rfl⟩⟩

/-- Witness for C5 at the boundary values `-1`, `-32768` and `-2^31`. -/
theorem codec_round_trip_witness :
    byte_decode (byte_encode (-1)) = -1 ∧
    short_decode (short_encode (-32768)) = -32768 ∧
    long_decode (long_encode (-(2^31))) = -(2^31) :=
  ⟨((codec_round_trip (-1)).1 (by decide) (by decide)).1,
   ((codec_round_trip (-32768)).2.1 (by decide) (by decide)).1,
   ((codec_round_trip (-(2^31))).2.2 (by decide) (by decide)).1⟩

/-- C6: the result funnel raises `FailedOperationError` on a negative
device code unless the caller passes `allow_fail`, in which case the
negative code is returned unchanged; an absent (`None`) or empty
payload where data was expected raises; non-negative codes and
non-empty payloads are returned unchanged. -/
theorem result_funnel_semantics (e : Int) (d : List Int) :
    (e < 0 → handle_error (some e) false =
      .error (.failedOperation ("errorcode " ++ toString e))) ∧
    (e < 0 → handle_error (some e) true = .ok e) ∧
    (0 ≤ e → ∀ af, handle_error (some e) af = .ok e) ∧
    fetch_data_block none = .error (.failedOperation "no data") ∧
    fetch_data_block (some []) = .error (.failedOperation "no data") ∧
    (d ≠ [] → fetch_data_block (some d) = .ok d) := by
  refine ⟨fun h => ?_, fun h => ?_, fun h af => ?_, rfl, rfl, fun h => ?_⟩
  · simp [handle_error, h]
  · simp [handle_error]
  · simp [handle_error, not_lt.mpr h]
  · simp [fetch_data_block, h]

/-- Witness for C6 at code `-3` and payload `[1, 2]`. -/
theorem result_funnel_semantics_witness :
    handle_error (some (-3)) false = .error (.failedOperation "errorcode -3") ∧
    handle_error (some (-3)) true = .ok (-3) ∧
    handle_error (some 7) false = .ok 7 ∧
    fetch_data_block (some [1, 2]) = .ok [1, 2] :=
  ⟨(result_funnel_semantics (-3) [1, 2]).1 (by decide),
   (result_funnel_semantics (-3) [1, 2]).2.1 (by decide),
   (result_funnel_semantics 7 [1, 2]).2.2.1 (by decide) false,
   (result_funnel_semantics 7 [1, 2]).2.2.2.2.2 (by decide)⟩

/-- C7: addressing is compositional and round-trips — the root's
id-chain is empty, `root.id_chain_for(slot) = (slot,)`, a child's
id-chain is the parent's with the slot appended, and rebuilding a
container chain with the purely client-side `container_for` and
re-deriving its id-chain yields the original sequence. -/
theorem addressing_compositional :
    id_chain Container.root = [] ∧
    (∀ s : Int, id_chain_for Container.root s = [s]) ∧
    (∀ (c : Container) (s : Int),
      id_chain (Container.child c s) = id_chain c ++ [s]) ∧
    (∀ idc : List Int, id_chain (container_for idc) = idc) := by
  refine ⟨rfl, fun s => rfl, id_chain_child, fun idc => ?_⟩
  show id_chain (List.foldl Container.child Container.root idc) = idc
  rw [id_chain_foldl]
  rfl

/-- C4: `write_value` sends exactly the encoded bytes and raises a
failure whenever the echoed bytes differ from what was sent (there is
no error-code path that bypasses the check); on a correct non-empty
echo it succeeds.  The model carries no cached value — the emitted
command and the outcome are the operation's only client-visible
effects. -/
theorem write_value_echo_mismatch (α : Type) (enc : α → List Int)
    (idc : List Int) (v : α) (echo : List Int) :
    (write_value enc idc v echo).1 = [Event.writeVal idc (enc v)] ∧
    (echo ≠ enc v →
      ∃ msg, (write_value enc idc v echo).2 = .error (.failedOperation msg)) ∧
    (echo = enc v → echo ≠ [] → (write_value enc idc v echo).2 = .ok ()) := by
  refine ⟨rfl, fun h => ?_, fun h1 h2 => ?_⟩
  · by_cases he : echo = []
    · exact ⟨"no data", by simp [write_value, fetch_data_block, he]⟩
    · exact ⟨"could not write value", by simp [write_value, fetch_data_block, he, h]⟩
  · subst h1
    simp [write_value, fetch_data_block, h2]

/-- Witness for C4: a mismatched echo for the Short encoding of 5
fails; the exact echo succeeds. -/
theorem write_value_echo_mismatch_witness :
    (∃ msg, (write_value short_encode [1] (5 : Int) [9, 9]).2 =
      .error (.failedOperation msg)) ∧
    (write_value short_encode [1] (5 : Int) (short_encode 5)).2 = .ok () :=
  ⟨(write_value_echo_mismatch Int short_encode [1] 5 [9, 9]).2.1 (by decide),
   (write_value_echo_mismatch Int short_encode [1] 5 (short_encode 5)).2.2 rfl
     (by decide)⟩

/-- C3 counterexample: with stored id byte `0x42 = 66` (not the `0xFF`
sentinel) the claim says no write is issued, but `initialize` writes
the stored id back unconditionally: the trace of the run contains a
system write. -/
theorem initialize_nonsentinel_still_writes :
    initialize_controller [66] [7] [66] =
      ([Event.readSys [0] 1, Event.writeSys [0] [66]], .ok [66]) ∧
    Event.writeSys [0] [66] ∈ (initialize_controller [66] [7] [66]).1 :=
  ⟨rfl, by decide⟩

/-- C3 amended: `initialize(fetch_id)` reads the 1-byte stored system
id; iff the stored byte equals `0xFF` it obtains a fresh id from the
collaborator; it then writes the effective id back in either case (the
fresh id when the sentinel was read, the stored id otherwise) and
returns it. -/
theorem initialize_effective_id (stored fresh : List Int)
    (h1 : stored ≠ []) (h2 : fresh ≠ []) :
    (stored.getD 0 0 = 255 →
      initialize_controller stored fresh fresh =
        ([Event.readSys [0] 1, Event.writeSys [0] fresh], .ok fresh)) ∧
    (stored.getD 0 0 ≠ 255 →
      initialize_controller stored fresh stored =
        ([Event.readSys [0] 1, Event.writeSys [0] stored], .ok stored)) := by
  constructor
  · intro h
    simp [List.getD] at h
    simp [initialize_controller, fetch_data_block, h1, h2, h]
  · intro h
    simp [List.getD] at h
    simp [initialize_controller, fetch_data_block, h1, h]

/-- Witness for C3 at stored ids `[255]` (sentinel: the fresh id `[7]`
is written and returned) and `[66]` (stored id written back and
returned). -/
theorem initialize_effective_id_witness :
    initialize_controller [255] [7] [7] =
      ([Event.readSys [0] 1, Event.writeSys [0] [7]], .ok [7]) ∧
    initialize_controller [66] [7] [66] =
      ([Event.readSys [0] 1, Event.writeSys [0] [66]], .ok [66]) :=
  ⟨(initialize_effective_id [255] [7] (by decide) (by decide)).1 (by decide),
   (initialize_effective_id [66] [7] (by decide) (by decide)).2 (by decide)⟩

/-- C9 counterexample: the claim quantifies over every run, but when
the device answers the first `delete()` with a negative error code,
`_handle_error` raises before the three clearing assignments run: the
first call does not detach the proxy (its outcome is the exception,
not the detached state), the proxy's references are unchanged, and a
subsequent `delete()` on that same still-attached proxy issues another
device delete — refuting "every subsequent delete() on the same proxy
issues no device call and changes nothing". -/
theorem delete_proxy_failed_delete_stays_attached :
    delete_proxy ⟨true, some Container.root, some 2⟩ (-1) =
      ([Event.deleteObject [2]], .error (.failedOperation "errorcode -1")) ∧
    delete_proxy ⟨true, some Container.root, some 2⟩ (-1) ≠
      ([Event.deleteObject [2]], .ok ⟨false, none, none⟩) ∧
    (delete_proxy ⟨true, some Container.root, some 2⟩ 0).1 =
      [Event.deleteObject [2]] ∧
    ([Event.deleteObject [2]] : List Event) ≠ [] :=
  ⟨rfl, by intro h; injection h with h1 h2; exact Except.noConfusion h2, rfl,
   by decide⟩

/-- C9 amended: when the device reports success on the first
`delete()` of a live proxy (non-negative response, so no exception
interrupts the clearing), the call issues exactly one device delete
for the object's id-chain and then clears the container, slot and
controller references; every subsequent `delete()` on the detached
proxy issues no device command and changes nothing, whatever the
device would have answered. -/
theorem delete_proxy_idempotent_detaching (c : Container) (s : Int)
    (resp resp2 : Int) (h : 0 ≤ resp) :
    delete_proxy ⟨true, some c, some s⟩ resp =
      ([Event.deleteObject (id_chain_for c s)], .ok ⟨false, none, none⟩) ∧
    delete_proxy ⟨false, none, none⟩ resp2 = ([], .ok ⟨false, none, none⟩) := by
  constructor
  · simp [delete_proxy, handle_error, Proxy.id_chain, not_lt.mpr h]
  · simp [delete_proxy]

/-- Witness for C9 at the root container, slot 2, device responses 0
and then -1. -/
theorem delete_proxy_idempotent_detaching_witness :
    delete_proxy ⟨true, some Container.root, some 2⟩ 0 =
      ([Event.deleteObject [2]], .ok ⟨false, none, none⟩) ∧
    delete_proxy ⟨false, none, none⟩ (-1) = ([], .ok ⟨false, none, none⟩) :=
  ⟨(delete_proxy_idempotent_detaching Container.root 2 0 (-1) (by decide)).1,
   (delete_proxy_idempotent_detaching Container.root 2 0 (-1) (by decide)).2⟩

/-- C10: for every numeric type id carried by none of the registered
types, `BuiltInObjectTypes.from_id` returns the absent value rather
than raising; consequently, materializing a listed object with such a
type id and a non-empty definition block does not produce a well-formed
`ObjectReference` — the decode step has no class to dispatch to and the
materialization raises. -/
theorem unknown_type_id_lookup (t : Int)
    (h : ∀ τ : ObjType, τ.type_id ≠ t) :
    from_id t = none ∧
    ∀ (idc data : List Int), data ≠ [] →
      ∃ e, materialize_object_descriptor idc t data = .error e := by
  have hf : from_id t = none := by
    apply List.find?_eq_none.mpr
    intro x _
    simpa using h x
  refine ⟨hf, fun idc data hd => ?_⟩
  cases idc with
  | nil => exact ⟨.indexError, rfl⟩
  | cons a l =>
    cases data with
    | nil => exact absurd rfl hd
    | cons b bs =>
      exact ⟨.attributeError, by
        simp [materialize_object_descriptor, container_chain_and_id, hf]⟩

/-- Witness for C10 at the unregistered type id 42, id-chain `[1]` and
definition block `[5]`. -/
theorem unknown_type_id_lookup_witness :
    from_id 42 = none ∧
    ∃ e, materialize_object_descriptor [1] 42 [5] = .error e :=
  ⟨(unknown_type_id_lookup 42 (by intro τ; cases τ <;> decide)).1,
   (unknown_type_id_lookup 42 (by intro τ; cases τ <;> decide)).2 [1] [5]
     (by decide)⟩

/-- C8 counterexample: the claim quantifies over every integer value
with `threshold ≥ 0`, but the definition codec only round-trips values
representable as signed 16-bit Shorts: for args `(40000, 0)` the
encoder produces the block `[64, 156, 0, 0]`, which decodes back to
`(-25536, 0) ≠ (40000, 0)`. -/
theorem persist_change_value_roundtrip_cex :
    PersistChangeValue.encode_definition (40000, 0) = .ok [64, 156, 0, 0] ∧
    PersistChangeValue.decode_definition [64, 156, 0, 0] = .ok (-25536, 0) ∧
    ((-25536 : Int), (0 : Int)) ≠ ((40000 : Int), (0 : Int)) :=
  ⟨rfl, rfl, by decide⟩

/-- C8 amended: for `value` and `threshold` representable as signed
16-bit Shorts (`-32768 ≤ value ≤ 32767`, `0 ≤ threshold ≤ 32767`),
`encode_definition((value, threshold))` produces the 4-byte block
`Short(value) ++ Short(threshold)` — in particular `(100, 5)` encodes
to `[100, 0, 5, 0]` — `decode_definition` of that block reproduces
`(value, threshold)`, and a negative threshold raises a `ValueError`
inside `encode_definition` itself, a pure classmethod that performs no
device call. -/
theorem persist_change_value_definition_codec (v t : Int)
    (h1 : -32768 ≤ v) (h2 : v ≤ 32767) (h3 : 0 ≤ t) (h4 : t ≤ 32767) :
    PersistChangeValue.encode_definition (v, t) =
      .ok (short_encode v ++ short_encode t) ∧
    (short_encode v ++ short_encode t).length = 4 ∧
    PersistChangeValue.decode_definition (short_encode v ++ short_encode t) =
      .ok (v, t) ∧
    PersistChangeValue.encode_definition (100, 5) = .ok [100, 0, 5, 0] ∧
    (∀ v2 t2 : Int, t2 < 0 → PersistChangeValue.encode_definition (v2, t2) =
      .error (.valueError "threshold < 0")) := by
  have e1 : (short_encode v ++ short_encode t).take 2 = short_encode v := by
    simp [short_encode]
  have e2 : ((short_encode v ++ short_encode t).drop 2).take 2 = short_encode t := by
    simp [short_encode]
  refine ⟨?_, by simp [short_encode], ?_, rfl, fun v2 t2 ht => ?_⟩
  · simp [PersistChangeValue.encode_definition, not_lt.mpr h3]
  · simp only [PersistChangeValue.decode_definition, e1, e2,
      short_rt v h1 h2, short_rt t (by omega) (by omega)]
  · simp [PersistChangeValue.encode_definition, ht]

/-- Witness for C8 at args `(100, 5)` and the rejected `(7, -1)`. -/
theorem persist_change_value_definition_codec_witness :
    PersistChangeValue.decode_definition (short_encode 100 ++ short_encode 5) =
      .ok (100, 5) ∧
    PersistChangeValue.encode_definition (100, 5) = .ok [100, 0, 5, 0] ∧
    PersistChangeValue.encode_definition (7, -1) =
      .error (.valueError "threshold < 0") :=
  ⟨(persist_change_value_definition_codec 100 5 (by decide) (by decide)
      (by decide) (by decide)).2.2.1,
   (persist_change_value_definition_codec 100 5 (by decide) (by decide)
      (by decide) (by decide)).2.2.2.1,
   (persist_change_value_definition_codec 100 5 (by decide) (by decide)
      (by decide) (by decide)).2.2.2.2 7 (-1) (by decide)⟩

theorem create_object_checked_error_cases {α : Type} [DecidableEq α]
    (cls : ObjClass α) (args : Option α) (c : Container) (s cr : Int) :
    ∀ tr e, create_object_checked cls args c s cr = (tr, .error e) →
      tr = [] ∨ ∃ m, e = Err.failedOperation m := by
  intro tr e heq
  unfold create_object_checked create_cmd handle_error at heq
  cases args with
  | none =>
    by_cases hc : cr < 0
    · simp [hc] at heq
      exact .inr ⟨_, heq.2.symm⟩
    · simp [hc] at heq
  | some a =>
    cases henc : cls.encode_definition a with
    | error e2 =>
      simp [henc] at heq
      exact .inl heq.1
    | ok enc =>
      simp only [henc] at heq
      by_cases htr : cls.truthy a
      · by_cases hemp : enc = []
        · simp [htr, hemp] at heq
          exact .inl heq.1
        · simp only [htr, hemp, if_neg, if_true, if_false] at heq
          cases hdec : cls.decode_definition enc with
          | error e3 =>
            simp [hdec, hemp] at heq
            exact .inl heq.1
          | ok dec =>
            by_cases hne : dec = a
            · simp [hdec, hemp, hne] at heq
              by_cases hc : cr < 0
              · simp [hc] at heq
                exact .inr ⟨_, heq.2.symm⟩
              · simp [hc] at heq
            · simp [hdec, hemp, hne] at heq
              exact .inl heq.1
      · simp only [htr, if_false, Bool.false_eq_true] at heq
        by_cases hc : cr < 0
        · simp [hc] at heq
          exact .inr ⟨_, heq.2.symm⟩
        · simp [hc] at heq

/-- C2 counterexample: `create_object(PersistChangeValue, (40000, 0))`
with no explicit slot fails its local round-trip check (the block
decodes to `(-25536, 0)`), yet a device call — the next-slot query on
the root container — has already been issued: the claim that no
network call precedes the check is false. -/
theorem create_object_device_call_precedes_check :
    create_object pcvClass (some (40000, 0)) none none 1 0 =
      ([Event.nextSlot []], .error (.valueError "encode-decode mismatch")) ∧
    ([Event.nextSlot []] : List Event) ≠ [] :=
  ⟨rfl, by decide⟩

/-- C2 amended: for non-`None` args, the round-trip consistency check
`decode_definition(encode_definition(args)) == args` is performed, and
is performed before the create command is issued — if the check fails
(or any other local validation raises), no create command reaches the
device — but it runs only after the slot-management device calls: the
speculative delete at an explicit slot, or the next-slot query when no
slot is given, has already been issued by then. -/
theorem create_object_check_before_create {α : Type} [DecidableEq α]
    (cls : ObjClass α) (args : Option α) (cont : Option Container)
    (slot : Option Int) (ns cr : Int) :
    (∀ tr e, create_object cls args cont slot ns cr = (tr, .error e) →
      (e = Err.typeError ∨ ∃ m, e = Err.valueError m) →
      ∀ idc tid d, Event.createObject idc tid d ∉ tr) ∧
    (∀ a enc dec, args = some a → cls.truthy a = true →
      cls.encode_definition a = .ok enc → enc ≠ [] →
      cls.decode_definition enc = .ok dec → dec ≠ a →
      (slot ≠ none ∨ 0 ≤ ns) →
      (create_object cls args cont slot ns cr).2 =
        .error (.valueError "encode-decode mismatch")) := by
  constructor
  · intro tr e heq hkind idc tid d hmem
    have hff : ∀ m, e ≠ Err.failedOperation m := by
      rcases hkind with rfl | ⟨m, rfl⟩ <;> intro m2 h <;> exact Err.noConfusion h
    cases slot with
    | some s =>
      unfold create_object at heq
      injection heq with h1 h2
      rcases create_object_checked_error_cases cls args
          (cont.getD Container.root) s cr _ e (Prod.ext rfl h2) with h3 | ⟨m, hm⟩
      · have h4 : (create_object_checked cls args (cont.getD Container.root) s cr).1 = [] := h3
        rw [← h1, h4] at hmem
        simp at hmem
      · exact hff m hm
    | none =>
      unfold create_object at heq
      by_cases hns : ns < 0
      · rw [show handle_error (some ns) false =
            Except.error (Err.failedOperation ("errorcode " ++ toString ns)) from
            by simp [handle_error, hns]] at heq
        injection heq with h1 h2
        injection h2 with h3
        exact hff _ h3.symm
      · rw [show handle_error (some ns) false = Except.ok ns from
            by simp [handle_error, hns]] at heq
        injection heq with h1 h2
        rcases create_object_checked_error_cases cls args
            (cont.getD Container.root) ns cr _ e (Prod.ext rfl h2) with h3 | ⟨m, hm⟩
        · have h4 : (create_object_checked cls args (cont.getD Container.root) ns cr).1 = [] := h3
          rw [← h1, h4] at hmem
          simp at hmem
        · exact hff m hm
  · intro a enc dec ha htr henc hemp hdec hne hslot
    subst ha
    cases slot with
    | some s =>
      unfold create_object
      simp [create_object_checked, henc, hemp, htr, hdec, hne]
    | none =>
      rcases hslot with h | h
      · exact absurd rfl h
      unfold create_object
      simp [handle_error, not_lt.mpr h, create_object_checked, henc, hemp, htr,
        hdec, hne]

/-- Witness for C2's amended theorem at the counterexample input: the
failing round-trip for `PersistChangeValue` args `(40000, 0)` makes
`create_object` raise the mismatch `ValueError`. -/
theorem create_object_check_before_create_witness :
    (create_object pcvClass (some ((40000 : Int), (0 : Int))) none none 1 0).2 =
      .error (.valueError "encode-decode mismatch") :=
  (create_object_check_before_create pcvClass (some (40000, 0)) none none 1 0).2
    (40000, 0) [64, 156, 0, 0] (-25536, 0) rfl rfl (by rfl) (by decide) (by rfl)
    (by decide) (.inr (by decide))
